import Mathlib

/-!
Verification of the Ledger Synchronization and Aggregation Layer of the
CrowdFunding repository.

The definitions below are a shallow embedding of the Express handlers in
`server/index.js` and of the helpers in `utils/blockchain.js` and
`controllers/campaignController.js`.  External collaborators (the deployed
smart contract reached over RPC, and the MongoDB cache store) are modelled
as explicit oracle values passed to each handler: every RPC call the
JavaScript code can make appears as a field of `Contract`, and the outcome
of a cache-store call appears as a boolean oracle argument, exactly where
the JavaScript code would `await` the corresponding operation.

Amounts are kept exact: wei values are `Nat`, and the human-facing unit
conversion performed by `ethers.parseEther` / `ethers.formatEther` +
`parseFloat` is modelled as exact scaling on `Rat`.
-/

namespace CrowdFund

/-- A campaign record as returned by the contract call
`getCampaign(id) -> (creator, title, description, goal, deadline, amountCollected)`
(spec section 6; destructured this way in `server/index.js` and
`utils/blockchain.js`). -/
structure LedgerCampaign where
  creator : String
  title : String
  description : String
  goal : Nat
  deadline : Nat
  amountCollected : Nat
deriving DecidableEq

/-- Confirmation receipt of a submitted transaction (`tx.wait()` in
`server/index.js`): transaction hash, block number, and the parsed logs,
each reduced to the event name and its `campaignId` argument. -/
structure TxReceipt where
  txHash : String
  blockNumber : Nat
  events : List (String × Nat)
deriving DecidableEq

/-- Oracle view of the contract object built in `server/index.js`:
each field fixes the outcome of the corresponding RPC call for the
request being modelled. -/
structure Contract where
  campaignCount : Except String Nat
  getCampaign : Nat → Except String LedgerCampaign
  createCampaign : String → String → Rat → Nat → Except String TxReceipt
  fund : Nat → Rat → Except String String

/-- A MongoDB `Campaign` document as created in `server/index.js`
(`Campaign.create({...})`): denormalized metadata keyed by `campaignId`. -/
structure CacheRecord where
  title : String
  description : String
  targetEth : Rat
  raisedEth : Rat
  creator : String
  txHash : String
  campaignId : Nat
  deleted : Bool
deriving DecidableEq

/-- Ledger operations a handler can issue while reading, used to trace
how many `campaignCount()` and `getCampaign(id)` reads occur. -/
inductive LedgerOp where
  | opCount : LedgerOp
  | opFetch : Nat → LedgerOp
deriving DecidableEq

/-- True exactly on `getCampaign` reads. -/
def LedgerOp.isFetch : LedgerOp → Bool
  | .opFetch _ => true
  | .opCount => false

/-- Exact model of `ethers.parseEther` on a decimal ether amount. -/
def parseEther (eth : Rat) : Rat := eth * (10 : Rat) ^ 18

/-- Exact model of `parseFloat(ethers.formatEther(wei))`: the ether value
of a wei amount. -/
def weiToEth (wei : Nat) : Rat := (wei : Rat) / (10 : Rat) ^ 18

/-- Model of `Campaign.findOneAndUpdate({ campaignId: cid }, { raisedEth: v })`
in `server/index.js`: update the first document matching `campaignId`,
returning the new list and the updated document (`new: true`), or `none`
when no document matches. -/
def findOneAndUpdateRaised : List CacheRecord → Nat → Rat → List CacheRecord × Option CacheRecord
  | [], _, _ => ([], none)
  | r :: rest, cid, v =>
    if r.campaignId = cid then
      let r' := { r with raisedEth := v }
      (r' :: rest, some r')
    else
      let p := findOneAndUpdateRaised rest cid v
      (r :: p.1, p.2)

/-- The `for (const log of logs)` scan in `server/index.js` lines 169-179:
first event named `CampaignCreated` yields its `campaignId` argument. -/
def findCampaignCreated : List (String × Nat) → Option Nat
  | [] => none
  | (n, cid) :: rest => if n = "CampaignCreated" then some cid else findCampaignCreated rest

/-- Identifier resolution of `server/index.js` lines 163-192: the event
path, then the `campaignCount()` fallback, then the `Math.random()`
synthetic fallback (`rand` is the sampled random value).  The second
component records the ledger reads performed. -/
def resolveWithTrace (events : List (String × Nat)) (countRead : Except String Nat)
    (rand : Nat) : Nat × List LedgerOp :=
  match findCampaignCreated events with
  | some cid => (cid, [])
  | none =>
    match countRead with
    | .ok n => (n, [LedgerOp.opCount])
    | .error _ => (rand % 1000000, [LedgerOp.opCount])

/-- The `for (let i = 1; i <= count; i++) { try ... catch { } }` loop shared
by `utils/blockchain.js` (fetchAllCampaigns) and the `/campaigns` handler in
`server/index.js`: fetch each identifier starting at `start` for `n`
iterations, skipping identifiers whose fetch fails; the second component
records the reads issued. -/
def fetchRange (fetch : Nat → Except String LedgerCampaign) (start : Nat) :
    Nat → List (Nat × LedgerCampaign) × List LedgerOp
  | 0 => ([], [])
  | n + 1 =>
    let rest := fetchRange fetch (start + 1) n
    match fetch start with
    | .ok c => ((start, c) :: rest.1, LedgerOp.opFetch start :: rest.2)
    | .error _ => (rest.1, LedgerOp.opFetch start :: rest.2)

/-- The raw campaign objects pushed by `utils/blockchain.js`:
`goal` and `amountCollected` as decimal strings, `deadline` as
`deadline ? deadline.toString() : null` (so `0` becomes `null`). -/
structure RawCampaign where
  id : Nat
  creator : String
  title : String
  description : String
  goal : String
  amountCollected : String
  deadline : Option String
deriving DecidableEq

/-- Projection of one fetched record into the object pushed by
`utils/blockchain.js`. -/
def toRawCampaign (i : Nat) (c : LedgerCampaign) : RawCampaign :=
  { id := i
    creator := c.creator
    title := c.title
    description := c.description
    goal := toString c.goal
    amountCollected := toString c.amountCollected
    deadline := if c.deadline = 0 then none else some (toString c.deadline) }

/-- `fetchAllCampaigns` of `utils/blockchain.js`, instrumented with the
trace of ledger reads it performs: one `campaignCount()` read (whose
failure propagates, the read not being guarded there), then the
1-indexed enumeration loop. -/
def fetchAllCampaignsRun (c : Contract) : Except String (List RawCampaign) × List LedgerOp :=
  match c.campaignCount with
  | .error e => (.error e, [LedgerOp.opCount])
  | .ok count =>
    let r := fetchRange c.getCampaign 1 count
    (.ok (r.1.map fun p => toRawCampaign p.1 p.2), LedgerOp.opCount :: r.2)

/-- `fetchAllCampaigns` of `utils/blockchain.js`: the returned list. -/
def fetchAllCampaigns (c : Contract) : Except String (List RawCampaign) :=
  (fetchAllCampaignsRun c).1

/-- Identifiers of a successful enumeration result (empty on error). -/
def exceptIds : Except String (List RawCampaign) → List Nat
  | .ok l => l.map RawCampaign.id
  | .error _ => []

/-- A campaign view object built by the `/campaigns` handler in
`server/index.js`: note the falsy-string defaults on `title` and
`description`, and `deadline` rendered as a string. -/
structure CampaignSummaryView where
  id : Nat
  owner : String
  title : String
  description : String
  goal : Rat
  deadline : String
  raised : Rat
deriving DecidableEq

/-- View construction of the `/campaigns` loop body. -/
def toSummaryView (i : Nat) (c : LedgerCampaign) : CampaignSummaryView :=
  { id := i
    owner := c.creator
    title := if c.title = "" then "Untitled Campaign" else c.title
    description := if c.description = "" then "No description" else c.description
    goal := weiToEth c.goal
    deadline := toString c.deadline
    raised := weiToEth c.amountCollected }

/-- Response of the `/campaigns` handler: a JSON list or an HTTP error
status (the latter is never produced by this handler, which is the point
of claim C5, but the type admits it so that the theorem says something). -/
inductive ListResp where
  | items : List CampaignSummaryView → ListResp
  | errorStatus : Nat → String → ListResp
deriving DecidableEq

/-- The `GET /campaigns` handler of `server/index.js` lines 89-136:
no contract, a failed `campaignCount()` read, or a zero count all answer
with the empty JSON list; otherwise the 1-indexed skip-on-error loop. -/
def campaignsHandler (contract : Option Contract) : ListResp :=
  match contract with
  | none => .items []
  | some c =>
    match c.campaignCount with
    | .error _ => .items []
    | .ok total =>
      if total = 0 then .items []
      else .items ((fetchRange c.getCampaign 1 total).1.map fun p => toSummaryView p.1 p.2)

/-- The single-campaign view of the `GET /campaign/:id` handler in
`server/index.js`. -/
structure CampaignDetailView where
  id : Nat
  creator : String
  title : String
  description : String
  goalEth : Rat
  amountCollectedEth : Rat
  deadline : String
deriving DecidableEq

/-- View construction of the `GET /campaign/:id` handler. -/
def toDetailView (i : Nat) (c : LedgerCampaign) : CampaignDetailView :=
  { id := i
    creator := c.creator
    title := c.title
    description := c.description
    goalEth := weiToEth c.goal
    amountCollectedEth := weiToEth c.amountCollected
    deadline := toString c.deadline }

/-- Response of `GET /campaign/:id`: a view object, 404 `Not found`,
503 `Blockchain not configured`, or the catch-all 500
`Could not fetch campaign`. -/
inductive OneResp where
  | view : CampaignDetailView → OneResp
  | notFound : OneResp
  | notConfigured : OneResp
  | serverError : OneResp
deriving DecidableEq

/-- The `GET /campaign/:id` handler of `server/index.js` lines 276-300.
The only range check performed is `id > total` (line 283); any failure
inside the `try` block (including a failing `getCampaign`) lands in the
catch and answers 500. -/
def campaignByIdHandler (contract : Option Contract) (id : Nat) : OneResp :=
  match contract with
  | none => .notConfigured
  | some c =>
    match c.campaignCount with
    | .error _ => .serverError
    | .ok total =>
      if total < id then .notFound
      else
        match c.getCampaign id with
        | .error _ => .serverError
        | .ok camp => .view (toDetailView id camp)

/-- Request body of `POST /createCampaign`: `goal` is `none` when the
field is `undefined`/`null`, `durationInDays` is `none` when omitted. -/
structure CreateReq where
  title : String
  description : String
  goal : Option Rat
  durationInDays : Option Nat
deriving DecidableEq

/-- Arguments of the `contract.createCampaign(...)` submission performed
by the handler (observable record of what was sent to the ledger). -/
structure SubmittedCreate where
  title : String
  description : String
  goalWei : Rat
  duration : Nat
deriving DecidableEq

/-- Response of `POST /createCampaign`. -/
inductive CreateResp where
  | success (message txHash : String) (blockNumber : Nat) (campaignId : Nat)
  | failure (status : Nat) (error : String)
deriving DecidableEq

/-- Whether a create response is the success JSON. -/
def CreateResp.isSuccess : CreateResp → Bool
  | .success _ _ _ _ => true
  | .failure _ _ => false

/-- Full observable outcome of one `POST /createCampaign` request:
the HTTP response, the MongoDB document stored (if any), the ledger
reads issued during identifier resolution, and the submitted args. -/
structure CreateOutcome where
  resp : CreateResp
  stored : Option CacheRecord
  ledgerReads : List LedgerOp
  submitted : Option SubmittedCreate
deriving DecidableEq

/-- The `POST /createCampaign` handler of `server/index.js` lines 139-230.
`mongoConnected` models `mongoose.connection.readyState === 1`;
`dbCreateOk` models whether `Campaign.create` succeeds (its failure is
swallowed by the inner try); `rand` is the `Math.random()` sample used by
the synthetic-identifier fallback. -/
def createCampaignHandler (contract : Option Contract) (mongoConnected dbCreateOk : Bool)
    (rand : Nat) (userId : String) (req : CreateReq) : CreateOutcome :=
  match contract with
  | none => ⟨.failure 503 "Blockchain not configured", none, [], none⟩
  | some c =>
    match req.goal with
    | none => ⟨.failure 400 "title, description and goal are required", none, [], none⟩
    | some goal =>
      if req.title = "" ∨ req.description = "" then
        ⟨.failure 400 "title, description and goal are required", none, [], none⟩
      else
        let goalWei := parseEther goal
        let duration := req.durationInDays.getD 30
        let sub : SubmittedCreate := ⟨req.title, req.description, goalWei, duration⟩
        match c.createCampaign req.title req.description goalWei duration with
        | .error e => ⟨.failure 500 ("Failed to create campaign: " ++ e), none, [], some sub⟩
        | .ok receipt =>
          let rt := resolveWithTrace receipt.events c.campaignCount rand
          let stored : Option CacheRecord :=
            if mongoConnected && dbCreateOk then
              some ⟨req.title, req.description, goal, 0, userId, receipt.txHash, rt.1, false⟩
            else none
          ⟨.success "Campaign created!" receipt.txHash receipt.blockNumber rt.1, stored,
            rt.2, some sub⟩

/-- Response of `POST /donate`. -/
inductive DonateResp where
  | success (message txHash : String)
  | failure (status : Nat) (error : String)
deriving DecidableEq

/-- Observable outcome of one `POST /donate` request. -/
structure DonateOutcome where
  resp : DonateResp
  cache : List CacheRecord
deriving DecidableEq

/-- The `POST /donate` handler of `server/index.js` lines 233-273:
after a successful `fund`, the MongoDB refresh (`getCampaign` re-read and
`findOneAndUpdate`) runs inside a swallowing try, so the response is the
success JSON regardless of its outcome.  `dbUpdateOk` models whether the
`findOneAndUpdate` call succeeds. -/
def donateHandler (contract : Option Contract) (mongoConnected dbUpdateOk : Bool)
    (cache : List CacheRecord) (id : Nat) (amount : Rat) : DonateOutcome :=
  match contract with
  | none => ⟨.failure 503 "Blockchain not configured", cache⟩
  | some c =>
    match c.fund id (parseEther amount) with
    | .error e => ⟨.failure 500 e, cache⟩
    | .ok txHash =>
      let cache' :=
        if mongoConnected then
          match c.getCampaign id with
          | .error _ => cache
          | .ok camp =>
            if dbUpdateOk then (findOneAndUpdateRaised cache id (weiToEth camp.amountCollected)).1
            else cache
        else cache
      ⟨.success "Donation successful!" txHash, cache'⟩

/-- Response of `POST /sync-campaign`. -/
inductive SyncResp where
  | success (raisedEth : Rat) (warning : Option String)
  | failure (status : Nat) (error : String)
deriving DecidableEq

/-- Observable outcome of one `POST /sync-campaign` request. -/
structure SyncOutcome where
  resp : SyncResp
  cache : List CacheRecord
deriving DecidableEq

/-- The `POST /sync-campaign` handler of `server/index.js` lines 339-379:
re-reads `getCampaign(campaignId).amountCollected` from the ledger and
overwrites the cached `raisedEth` with it.  The `if (!campaignId)` guard
is a JavaScript falsy check, so both a missing field and `0` answer 400. -/
def syncCampaignHandler (contract : Option Contract) (mongoConnected : Bool)
    (cache : List CacheRecord) (campaignId : Option Nat) : SyncOutcome :=
  match contract with
  | none => ⟨.failure 503 "Blockchain not configured", cache⟩
  | some c =>
    match campaignId with
    | none => ⟨.failure 400 "campaignId is required", cache⟩
    | some cid =>
      if cid = 0 then ⟨.failure 400 "campaignId is required", cache⟩
      else
        match c.getCampaign cid with
        | .error e => ⟨.failure 500 e, cache⟩
        | .ok camp =>
          let raisedEth := weiToEth camp.amountCollected
          if mongoConnected then
            let p := findOneAndUpdateRaised cache cid raisedEth
            if p.2.isSome then ⟨.success raisedEth none, p.1⟩
            else ⟨.success raisedEth (some "Campaign not found in MongoDB metadata"), p.1⟩
          else ⟨.success raisedEth (some "MongoDB not connected - sync skipped"), cache⟩

/-- Modelled from the spec: the CrowdFund smart contract itself is not
under `src/` (only its callers are), so the ledger state is taken from
spec sections 3 and 6: campaigns carry identifiers `1..count` assigned in
creation order (`campaignCount` increments before storing, per the source
comments in `server/index.js` and `utils/blockchain.js`). -/
structure LedgerState where
  campaigns : List LedgerCampaign
deriving DecidableEq

/-- Modelled from the spec: `campaignCount()` of the deployed contract. -/
def LedgerState.count (s : LedgerState) : Nat := s.campaigns.length

/-- Modelled from the spec: `getCampaign(id)` of the deployed contract;
per spec sections 3, 4.1 and 8, an identifier of `0` or greater than
`count` never resolves and the call fails with `NotFound`. -/
def LedgerState.fetch (s : LedgerState) (id : Nat) : Except String LedgerCampaign :=
  if h : 1 ≤ id ∧ id ≤ s.campaigns.length then
    Except.ok (s.campaigns.get ⟨id - 1, by omega⟩)
  else Except.error "NotFound"

/-- Modelled from the spec: `createCampaign` of the deployed contract
appends a record with `amountCollected = 0` and emits a `CampaignCreated`
event carrying the newly assigned identifier (spec section 6). -/
def LedgerState.createCampaign (s : LedgerState) (creator title description : String)
    (goal durationDays now : Nat) : LedgerState × (String × Nat) :=
  (⟨s.campaigns ++ [⟨creator, title, description, goal, now + durationDays * 86400, 0⟩]⟩,
   ("CampaignCreated", s.campaigns.length + 1))

/-- A `Contract` oracle whose read surface answers from a ledger state
(a reachable node with no concurrent writers); the submit calls are left
as parameters, unused by the read handlers. -/
def contractOfLedger (s : LedgerState)
    (submitCreate : String → String → Rat → Nat → Except String TxReceipt)
    (submitFund : Nat → Rat → Except String String) : Contract :=
  { campaignCount := Except.ok s.count
    getCampaign := s.fetch
    createCampaign := submitCreate
    fund := submitFund }

/-! ### Lemmas about the enumeration loop -/

/-- Trace of the skip-on-error loop: one `getCampaign` read per identifier
in `start, start+1, ..., start+n-1`, whatever each read returns. -/
theorem fetchRange_snd (f : Nat → Except String LedgerCampaign) (start n : Nat) :
    (fetchRange f start n).2 = (List.range' start n).map LedgerOp.opFetch := by
  induction n generalizing start with
  | zero => rfl
  | succ n ih =>
    rw [List.range'_succ]
    cases hf : f start <;> simp [fetchRange, hf, ih]

/-- Results of the skip-on-error loop: exactly the identifiers whose fetch
succeeds, paired with the fetched record, in enumeration order. -/
theorem fetchRange_fst (f : Nat → Except String LedgerCampaign) (start n : Nat) :
    (fetchRange f start n).1 = (List.range' start n).filterMap
      (fun i => match f i with | .ok c => some (i, c) | .error _ => none) := by
  induction n generalizing start with
  | zero => rfl
  | succ n ih =>
    rw [List.range'_succ]
    cases hf : f start <;> simp [fetchRange, hf, ih]

/-- Characterization of `fetchAllCampaigns` when the count read succeeds:
the raw objects for exactly the identifiers in `1..count` whose fetch
succeeds, in order. -/
theorem fetchAll_characterization (c : Contract) (count : Nat)
    (h : c.campaignCount = Except.ok count) :
    fetchAllCampaigns c = Except.ok ((List.range' 1 count).filterMap
      (fun i => match c.getCampaign i with
        | Except.ok camp => some (toRawCampaign i camp)
        | Except.error _ => none)) := by
  simp only [fetchAllCampaigns, fetchAllCampaignsRun, h]
  rw [fetchRange_fst, List.map_filterMap]
  congr 1
  apply List.filterMap_congr
  intro i _
  cases hf : c.getCampaign i <;> simp [hf]

/-- The identifiers of a successful enumeration. -/
theorem fetchAll_ids (c : Contract) (count : Nat)
    (h : c.campaignCount = Except.ok count) :
    exceptIds (fetchAllCampaigns c) = (List.range' 1 count).filterMap
      (fun i => match c.getCampaign i with
        | Except.ok _ => some i
        | Except.error _ => none) := by
  rw [fetchAll_characterization c count h]
  simp only [exceptIds, List.map_filterMap]
  apply List.filterMap_congr
  intro i _
  cases hf : c.getCampaign i <;> simp [hf, toRawCampaign]

/-- Concrete ledger record used by the witnesses. -/
def demoCampaignAt (i : Nat) : LedgerCampaign :=
  ⟨"0xalice", "Water", "Clean water well", 1000, 1700000000, i * 2⟩

/-- A contract oracle with five campaigns whose third fetch fails. -/
def gapContract : Contract :=
  { campaignCount := Except.ok 5
    getCampaign := fun i =>
      if i = 3 then Except.error "RPC failure" else Except.ok (demoCampaignAt i)
    createCampaign := fun _ _ _ _ => Except.error "unused"
    fund := fun _ _ => Except.error "unused" }

/-- Claim C4: enumeration of all campaigns is resilient to per-identifier
fetch failures.  Whenever the count read succeeds, `fetchAllCampaigns`
returns (without aborting) exactly one entry per identifier in `1..count`
whose fetch succeeds, in enumeration order, omitting exactly the failing
identifiers. -/
theorem listAll_resilient_to_gaps (c : Contract) (count : Nat)
    (h : c.campaignCount = Except.ok count) :
    fetchAllCampaigns c = Except.ok ((List.range' 1 count).filterMap
      (fun i => match c.getCampaign i with
        | Except.ok camp => some (toRawCampaign i camp)
        | Except.error _ => none)) :=
  fetchAll_characterization c count h

/-- Claim C4 witness: with `count = 5` and `fetch(3)` failing, the result
contains entries for identifiers 1, 2, 4, 5 and omits 3. -/
theorem listAll_resilient_to_gaps_witness :
    exceptIds (fetchAllCampaigns gapContract) = [1, 2, 4, 5] := by
  rw [listAll_resilient_to_gaps gapContract 5 rfl]
  decide

/-- Claim C6: `fetchAllCampaigns` reads `count()` exactly once, issues one
fetch per identifier in `1..count` (in that order), and yields its results
in strictly ascending identifier order. -/
theorem listAll_trace_and_order (c : Contract) (count : Nat)
    (h : c.campaignCount = Except.ok count) :
    (fetchAllCampaignsRun c).2 =
        LedgerOp.opCount :: (List.range' 1 count).map LedgerOp.opFetch ∧
    List.Pairwise (fun a b => a < b) (exceptIds (fetchAllCampaigns c)) := by
  constructor
  · simp only [fetchAllCampaignsRun, h]
    rw [fetchRange_snd]
  · rw [fetchAll_ids c count h]
    refine (List.pairwise_lt_range' 1 count).filterMap _ ?_
    intro a a' hlt b hb b' hb'
    cases ha : c.getCampaign a <;> cases ha' : c.getCampaign a' <;> simp_all

/-- Claim C6 witness: on the five-campaign oracle the trace is one count
read followed by the fetches of 1..5, and the surviving identifiers are
strictly ascending. -/
theorem listAll_trace_and_order_witness :
    (fetchAllCampaignsRun gapContract).2 =
        [LedgerOp.opCount, LedgerOp.opFetch 1, LedgerOp.opFetch 2, LedgerOp.opFetch 3,
          LedgerOp.opFetch 4, LedgerOp.opFetch 5] ∧
    List.Pairwise (fun a b => a < b) (exceptIds (fetchAllCampaigns gapContract)) := by
  have h := listAll_trace_and_order gapContract 5 rfl
  refine ⟨?_, h.2⟩
  rw [h.1]
  decide

/-! ### The list endpoint degrades to an empty sequence -/

/-- Claim C5: the `GET /campaigns` operation answers the empty JSON list —
never an HTTP error — when the ledger client is unconfigured or the
`campaignCount()` read fails. -/
theorem campaigns_empty_on_unavailable (contract : Option Contract) (ct : Contract)
    (e : String) :
    (contract = none → campaignsHandler contract = ListResp.items []) ∧
    (contract = some ct → ct.campaignCount = Except.error e →
      campaignsHandler contract = ListResp.items []) := by
  constructor
  · intro h
    subst h
    rfl
  · intro h he
    subst h
    simp [campaignsHandler, he]

/-- A contract oracle whose node is unreachable. -/
def downContract : Contract :=
  { campaignCount := Except.error "ECONNREFUSED"
    getCampaign := fun _ => Except.error "ECONNREFUSED"
    createCampaign := fun _ _ _ _ => Except.error "ECONNREFUSED"
    fund := fun _ _ => Except.error "ECONNREFUSED" }

/-- Claim C5 witness: both the unconfigured case and the failing count
read answer the empty list. -/
theorem campaigns_empty_on_unavailable_witness :
    campaignsHandler none = ListResp.items [] ∧
    campaignsHandler (some downContract) = ListResp.items [] :=
  ⟨(campaigns_empty_on_unavailable none downContract "ECONNREFUSED").1 rfl,
   (campaigns_empty_on_unavailable (some downContract) downContract "ECONNREFUSED").2 rfl rfl⟩

/-! ### The single-campaign endpoint and its range check -/

/-- Unused submit oracle for read-only scenarios. -/
def noSubmit : String → String → Rat → Nat → Except String TxReceipt :=
  fun _ _ _ _ => Except.error "unused"

/-- Unused fund oracle for read-only scenarios. -/
def noFund : Nat → Rat → Except String String :=
  fun _ _ => Except.error "unused"

/-- A two-campaign ledger. -/
def demoLedger2 : LedgerState := ⟨[demoCampaignAt 1, demoCampaignAt 2]⟩

/-- Contract over the two-campaign ledger. -/
def byIdDemoContract : Contract := contractOfLedger demoLedger2 noSubmit noFund

/-- Claim C3 counterexample: on a reachable two-campaign ledger, requesting
identifier `0` does not answer 404: the handler only checks `id > count`,
so the fetch of `0` fails with `NotFound` inside the try block and the
catch answers 500. -/
theorem campaignById_zero_counterexample :
    campaignByIdHandler (some byIdDemoContract) 0 = OneResp.serverError ∧
    OneResp.serverError ≠ OneResp.notFound := by
  decide

/-- Claim C3 (amended): the `GET /campaign/:id` handler answers 404 exactly
for `id > count()`; an `id` in `1..count()` yields a single view object;
`id = 0` slips past the only range check, the ledger fetch fails, and the
response is the catch-all 500, not 404. -/
theorem campaignById_status (s : LedgerState)
    (sc : String → String → Rat → Nat → Except String TxReceipt)
    (fd : Nat → Rat → Except String String) (id : Nat) :
    (id = 0 → campaignByIdHandler (some (contractOfLedger s sc fd)) id = OneResp.serverError) ∧
    (s.count < id → campaignByIdHandler (some (contractOfLedger s sc fd)) id = OneResp.notFound) ∧
    (1 ≤ id → id ≤ s.count →
      ∃ v, campaignByIdHandler (some (contractOfLedger s sc fd)) id = OneResp.view v) := by
  have hlen : s.count = s.campaigns.length := rfl
  refine ⟨?_, ?_, ?_⟩
  · intro h
    subst h
    simp [campaignByIdHandler, contractOfLedger, LedgerState.fetch]
  · intro h
    simp [campaignByIdHandler, contractOfLedger, if_pos h]
  · intro h1 h2
    have hc : 1 ≤ id ∧ id ≤ s.campaigns.length := ⟨h1, hlen ▸ h2⟩
    have hnot : ¬ s.count < id := by
      rw [hlen]
      omega
    refine ⟨toDetailView id (s.campaigns.get ⟨id - 1, by omega⟩), ?_⟩
    simp only [campaignByIdHandler, contractOfLedger]
    rw [if_neg hnot]
    simp only [LedgerState.fetch, dif_pos hc]

/-- Claim C3 witness for the amended statement: identifier 0 answers 500,
identifier 3 (above the count of 2) answers 404, and identifier 1 answers
a view object. -/
theorem campaignById_status_witness :
    campaignByIdHandler (some byIdDemoContract) 0 = OneResp.serverError ∧
    campaignByIdHandler (some byIdDemoContract) 3 = OneResp.notFound ∧
    (∃ v, campaignByIdHandler (some byIdDemoContract) 1 = OneResp.view v) :=
  ⟨(campaignById_status demoLedger2 noSubmit noFund 0).1 rfl,
   (campaignById_status demoLedger2 noSubmit noFund 3).2.1 (by decide),
   (campaignById_status demoLedger2 noSubmit noFund 1).2.2 (by decide) (by decide)⟩

/-! ### Identifier resolution: event path versus count fallback -/

/-- One confirmed creation advances the count by one. -/
theorem createCampaign_count (s : LedgerState) (cr t d : String) (g dur now : Nat) :
    (s.createCampaign cr t d g dur now).1.count = s.count + 1 := by
  simp [LedgerState.createCampaign, LedgerState.count]

/-- Claim C2: with no concurrent writers, the event path and the fallback
path that reads `count()` after confirmation resolve the same identifier
for a confirmed creation; in particular both yield 5 when the ledger held
4 campaigns before submission. -/
theorem resolution_paths_agree (s : LedgerState) (creator title description : String)
    (goal dur now rand : Nat) (cr : Except String Nat) :
    (resolveWithTrace [(s.createCampaign creator title description goal dur now).2] cr rand).1 =
      (resolveWithTrace []
        (Except.ok (s.createCampaign creator title description goal dur now).1.count) rand).1 ∧
    (s.count = 4 →
      (resolveWithTrace [(s.createCampaign creator title description goal dur now).2]
          cr rand).1 = 5 ∧
      (resolveWithTrace []
          (Except.ok (s.createCampaign creator title description goal dur now).1.count)
          rand).1 = 5) := by
  have hev : (resolveWithTrace [(s.createCampaign creator title description goal dur now).2]
      cr rand).1 = s.count + 1 := by
    simp [resolveWithTrace, findCampaignCreated, LedgerState.createCampaign, LedgerState.count]
  have hfb : (resolveWithTrace []
      (Except.ok (s.createCampaign creator title description goal dur now).1.count) rand).1 =
      s.count + 1 := by
    simp [resolveWithTrace, findCampaignCreated, createCampaign_count]
  refine ⟨hev.trans hfb.symm, fun h4 => ⟨?_, ?_⟩⟩
  · rw [hev, h4]
  · rw [hfb, h4]

/-- A four-campaign ledger. -/
def fourLedger : LedgerState :=
  ⟨[demoCampaignAt 1, demoCampaignAt 2, demoCampaignAt 3, demoCampaignAt 4]⟩

/-- Claim C2 witness: `count() = 4` before submission; after one confirmed
creation the event path and the count fallback both resolve 5 (the
fallback count read is irrelevant to the event path, here a network
error). -/
theorem resolution_paths_agree_witness :
    (resolveWithTrace [(fourLedger.createCampaign "0xbob" "A" "d" 1000 30 0).2]
        (Except.error "network error") 7).1 = 5 ∧
    (resolveWithTrace []
        (Except.ok (fourLedger.createCampaign "0xbob" "A" "d" 1000 30 0).1.count) 7).1 = 5 :=
  (resolution_paths_agree fourLedger "0xbob" "A" "d" 1000 30 0 7
    (Except.error "network error")).2 rfl

/-! ### Cache reconciliation is idempotent -/

/-- Re-running `findOneAndUpdate` with the same value on its own output
changes nothing: the update replaces `raisedEth`, it never accumulates. -/
theorem findOneAndUpdateRaised_idem (l : List CacheRecord) (cid : Nat) (v : Rat) :
    findOneAndUpdateRaised (findOneAndUpdateRaised l cid v).1 cid v =
      findOneAndUpdateRaised l cid v := by
  induction l with
  | nil => rfl
  | cons r rest ih =>
    by_cases hr : r.campaignId = cid
    · simp [findOneAndUpdateRaised, hr]
    · simp [findOneAndUpdateRaised, hr, ih]

/-- Claim C7: `POST /sync-campaign` is idempotent.  With no intervening
ledger mutation (same contract oracle), running the handler a second time
on the cache produced by the first run returns the same response — the
same `raisedEth` — and leaves the cache exactly as after the first run,
because each run overwrites the cached value with the ledger re-read. -/
theorem reconcileAmount_idempotent (c : Contract) (mongo : Bool) (cache : List CacheRecord)
    (cid : Nat) (camp : LedgerCampaign) (h0 : cid ≠ 0)
    (hc : c.getCampaign cid = Except.ok camp) :
    syncCampaignHandler (some c) mongo
        (syncCampaignHandler (some c) mongo cache (some cid)).cache (some cid) =
      syncCampaignHandler (some c) mongo cache (some cid) := by
  cases mongo with
  | false => simp [syncCampaignHandler, h0, hc]
  | true =>
    simp only [syncCampaignHandler, hc, if_neg h0, if_true, apply_ite SyncOutcome.cache,
      ite_self]
    rw [findOneAndUpdateRaised_idem]

/-- Contract oracle for the sync witness: one campaign. -/
def syncContract : Contract :=
  { campaignCount := Except.ok 1
    getCampaign := fun _ => Except.ok (demoCampaignAt 1)
    createCampaign := noSubmit
    fund := noFund }

/-- Cache contents for the sync witness. -/
def demoCache : List CacheRecord :=
  [⟨"Water", "Clean water well", 1, 0, "user1", "0xtx", 1, false⟩]

/-- Claim C7 witness: two successive syncs of campaign 1 against an
unchanged ledger coincide. -/
theorem reconcileAmount_idempotent_witness :
    syncCampaignHandler (some syncContract) true
        (syncCampaignHandler (some syncContract) true demoCache (some 1)).cache (some 1) =
      syncCampaignHandler (some syncContract) true demoCache (some 1) :=
  reconcileAmount_idempotent syncContract true demoCache 1 (demoCampaignAt 1)
    (by decide) rfl

/-! ### Creation flow: synthetic identifier, cache failure, defaults -/

/-- A confirmed creation whose receipt carries no `CampaignCreated` event
and whose node then refuses the `campaignCount()` fallback read. -/
def unresolvedContract : Contract :=
  { campaignCount := Except.error "network down"
    getCampaign := fun _ => Except.error "network down"
    createCampaign := fun _ _ _ _ => Except.ok ⟨"0xabc", 7, []⟩
    fund := noFund }

/-- Claim C1 evaluation: when both the event path and the fallback count
read fail after a confirmed creation, the handler does NOT fail: it
answers 200 success carrying the `Math.random()`-derived synthetic
identifier (here 123456) and records a cache document under that invented
identifier. -/
theorem createCampaign_synthetic_identifier :
    (createCampaignHandler (some unresolvedContract) true true 123456 "user1"
        ⟨"A", "d", some 1, none⟩).resp =
      CreateResp.success "Campaign created!" "0xabc" 7 123456 ∧
    (createCampaignHandler (some unresolvedContract) true true 123456 "user1"
        ⟨"A", "d", some 1, none⟩).stored =
      some ⟨"A", "d", 1, 0, "user1", "0xabc", 123456, false⟩ := by
  decide

/-- A healthy contract oracle for the creation/donation witnesses. -/
def okContract : Contract :=
  { campaignCount := Except.ok 5
    getCampaign := fun _ => Except.ok (demoCampaignAt 1)
    createCampaign := fun _ _ _ _ => Except.ok ⟨"0xhash", 12, [("CampaignCreated", 5)]⟩
    fund := fun _ _ => Except.ok "0xfund" }

/-- Claim C8: for every create-campaign and donate request whose ledger
write succeeds, the cache-store outcome (`dbOk` arbitrary, in particular a
failing store) is never propagated: both handlers answer success. -/
theorem cacheFailure_nonfatal (c : Contract) (mongo dbOk : Bool) (rand : Nat)
    (userId : String) (req : CreateReq) (g : Rat) (cache : List CacheRecord)
    (id : Nat) (amount : Rat) (receipt : TxReceipt) (txh : String)
    (hg : req.goal = some g) (ht : req.title ≠ "") (hd : req.description ≠ "")
    (hcreate : c.createCampaign req.title req.description (parseEther g)
        (req.durationInDays.getD 30) = Except.ok receipt)
    (hfund : c.fund id (parseEther amount) = Except.ok txh) :
    (createCampaignHandler (some c) mongo dbOk rand userId req).resp.isSuccess = true ∧
    (donateHandler (some c) mongo dbOk cache id amount).resp =
      DonateResp.success "Donation successful!" txh := by
  constructor
  · simp [createCampaignHandler, hg, ht, hd, hcreate, CreateResp.isSuccess]
  · simp [donateHandler, hfund]

/-- Claim C8 witness: with the cache store failing (`dbOk = false`) and
both ledger writes succeeding, create answers success and donate answers
the success JSON. -/
theorem cacheFailure_nonfatal_witness :
    (createCampaignHandler (some okContract) true false 0 "user1"
        ⟨"A", "d", some 1, none⟩).resp.isSuccess = true ∧
    (donateHandler (some okContract) true false [] 5 1).resp =
      DonateResp.success "Donation successful!" "0xfund" :=
  cacheFailure_nonfatal okContract true false 0 "user1" ⟨"A", "d", some 1, none⟩ 1 [] 5 1
    ⟨"0xhash", 12, [("CampaignCreated", 5)]⟩ "0xfund" rfl (by decide) (by decide) rfl rfl

/-- Claim C9: for every successfully confirmed creation, the cache record
is stored with `raisedEth = 0`, and no `getCampaign` ledger read occurs
anywhere in the handler (the only possible read is the `campaignCount`
fallback of identifier resolution). -/
theorem recordCreation_zero_without_read (c : Contract) (rand : Nat) (userId : String)
    (req : CreateReq) (g : Rat) (receipt : TxReceipt)
    (hg : req.goal = some g) (ht : req.title ≠ "") (hd : req.description ≠ "")
    (hcreate : c.createCampaign req.title req.description (parseEther g)
        (req.durationInDays.getD 30) = Except.ok receipt) :
    (createCampaignHandler (some c) true true rand userId req).stored.map
        CacheRecord.raisedEth = some 0 ∧
    (createCampaignHandler (some c) true true rand userId req).ledgerReads.filter
        LedgerOp.isFetch = [] := by
  constructor
  · simp [createCampaignHandler, hg, ht, hd, hcreate]
  · have hreads : (createCampaignHandler (some c) true true rand userId req).ledgerReads =
        (resolveWithTrace receipt.events c.campaignCount rand).2 := by
      simp [createCampaignHandler, hg, ht, hd, hcreate]
    rw [hreads]
    cases he : findCampaignCreated receipt.events with
    | none =>
      cases hcount : c.campaignCount <;>
        simp [resolveWithTrace, he, hcount, LedgerOp.isFetch]
    | some cid => simp [resolveWithTrace, he]

/-- Claim C9 witness: a confirmed creation on the healthy oracle stores a
record whose `raisedEth` is zero, with no `getCampaign` read issued. -/
theorem recordCreation_zero_without_read_witness :
    (createCampaignHandler (some okContract) true true 0 "user1"
        ⟨"A", "d", some 1, none⟩).stored.map CacheRecord.raisedEth = some 0 ∧
    (createCampaignHandler (some okContract) true true 0 "user1"
        ⟨"A", "d", some 1, none⟩).ledgerReads.filter LedgerOp.isFetch = [] :=
  recordCreation_zero_without_read okContract 0 "user1" ⟨"A", "d", some 1, none⟩ 1
    ⟨"0xhash", 12, [("CampaignCreated", 5)]⟩ rfl (by decide) (by decide) rfl

/-- Claim C10: when `durationInDays` is omitted (`undefined`/`null`), the
ledger submission uses the default duration of 30 days. -/
theorem duration_default_thirty (c : Contract) (mongo dbOk : Bool) (rand : Nat)
    (userId : String) (req : CreateReq) (g : Rat)
    (hg : req.goal = some g) (ht : req.title ≠ "") (hd : req.description ≠ "")
    (hdur : req.durationInDays = none) :
    (createCampaignHandler (some c) mongo dbOk rand userId req).submitted =
      some ⟨req.title, req.description, parseEther g, 30⟩ := by
  cases hcc : c.createCampaign req.title req.description (parseEther g) 30 with
  | error e => simp [createCampaignHandler, hg, ht, hd, hdur, hcc]
  | ok receipt => simp [createCampaignHandler, hg, ht, hd, hdur, hcc]

/-- Claim C10 witness: an omitted `durationInDays` submits duration 30. -/
theorem duration_default_thirty_witness :
    (createCampaignHandler (some okContract) true true 0 "user1"
        ⟨"A", "d", some 1, none⟩).submitted = some ⟨"A", "d", parseEther 1, 30⟩ :=
  duration_default_thirty okContract true true 0 "user1" ⟨"A", "d", some 1, none⟩ 1
    rfl (by decide) (by decide) rfl

end CrowdFund
